import Mathlib

/-!
# Verification of the StompClient STOMP protocol engine

Shallow embedding of `src/StompClient.h` (class `Stomp::StompClient`).
The mutable object state becomes the structure `StompClient`; each C++
member function becomes a Lean function from a client state (plus the
inputs the function reads, such as the current `millis()` value) to a new
client state together with the list of observable effects it produces
(frames handed to the websocket transport, user callbacks invoked).
C++ operations that perform an out-of-bounds array access are modelled as
returning `none`.

Arduino `String` routines used by the code (`startsWith`, `substring`,
`toInt`, concatenation and decimal rendering of integers) are embedded
over `List Char`, following their documented semantics (`toInt` is C
`atol`: skip leading whitespace, optional sign, leading decimal digits,
zero when no digit is present).
-/

namespace Stomp

/-- Connection lifecycle state, `Stomp_State_t` (declared in `Stomp.h`,
used throughout `StompClient.h`). -/
inductive Stomp_State_t where
  | DISCONNECTED
  | OPENING
  | CONNECTED
  | DISCONNECTING
deriving Repr, DecidableEq

/-- Acknowledgement mode accepted by `subscribe`, `Stomp_AckMode_t`. -/
inductive Stomp_AckMode_t where
  | AUTO
  | CLIENT
  | CLIENT_INDIVIDUAL
deriving Repr, DecidableEq

/-- Value returned by a message handler, `Stomp_Ack_t`. -/
inductive Stomp_Ack_t where
  | ACK
  | NACK
  | CONTINUE
deriving Repr, DecidableEq

/-- Websocket event type (`WStype_t` of the WebSocketsClient library);
only the cases the client inspects, plus a catch-all for the default
branch. -/
inductive WStype_t where
  | WStype_DISCONNECTED
  | WStype_CONNECTED
  | WStype_TEXT
  | WStype_OTHER
deriving Repr, DecidableEq

/-- A parsed STOMP frame: command verb, ordered header list, body. -/
structure StompCommand where
  command : String
  headers : List (String × String)
  body : String
deriving Repr, DecidableEq

/-- One slot of the fixed-size subscription table (`StompSubscription`).
The function-pointer field `messageHandler` is represented by whether it
is non-null. -/
structure StompSubscription where
  id : Int
  hasHandler : Bool
deriving Repr, DecidableEq

/-- The free-slot sentinel: `id = -1`, no handler stored. -/
def noSub : StompSubscription := { id := -1, hasHandler := false }

/-- Observable effects of one operation: a text frame handed to
`_wsClient.sendTXT`, or an invocation of one of the registered
callbacks. -/
inductive Effect where
  | sendTXT (msg : String)
  | callConnect
  | callDisconnect
  | callReceipt
  | callError
  | callMessageHandler (slot : Nat)
deriving Repr, DecidableEq

/-- `STOMP_MAX_SUBSCRIPTIONS`, default 8. -/
def STOMP_MAX_SUBSCRIPTIONS : Nat := 8

/-- The mutable state of a `StompClient` object.  Callback registrations
are represented by whether the corresponding function pointer is
non-null. -/
structure StompClient where
  _sockjs : Bool
  _user : Option String
  _state : Stomp_State_t
  _subscriptions : List StompSubscription
  _lastSent : Nat
  _heartbeatInterval : Int
  _commandCount : Nat
  _heartbeats : Nat
  _connectHandler : Bool
  _disconnectHandler : Bool
  _receiptHandler : Bool
  _errorHandler : Bool
deriving Repr, DecidableEq

/-- The constructor of `StompClient`: state `DISCONNECTED`, every
subscription slot marked free (`id = -1`), all counters zero, no
callbacks registered.  `now0` is the `millis()` value captured by the
initializer of `_lastSent`. -/
def stompClientInit (now0 : Nat) (user : Option String) (sockjs : Bool) : StompClient :=
  { _sockjs := sockjs
    _user := user
    _state := Stomp_State_t.DISCONNECTED
    _subscriptions := List.replicate STOMP_MAX_SUBSCRIPTIONS noSub
    _lastSent := now0
    _heartbeatInterval := 0
    _commandCount := 0
    _heartbeats := 0
    _connectHandler := false
    _disconnectHandler := false
    _receiptHandler := false
    _errorHandler := false }

/-! ## Arduino String semantics -/

/-- Arduino `String::startsWith`. -/
def strStartsWith (s p : String) : Bool :=
  s.toList.take p.toList.length == p.toList

/-- Arduino `String::substring(n)` (suffix from character index `n`). -/
def strDrop (s : String) (n : Nat) : String :=
  String.mk (s.toList.drop n)

/-- Accumulate the leading decimal digits, stopping at the first
non-digit, as C `atol` does after sign handling. -/
def digitsVal : List Char → Nat → Nat
  | [], acc => acc
  | c :: cs, acc =>
      if c.isDigit then digitsVal cs (acc * 10 + (c.toNat - 48)) else acc

/-- Arduino `String::toInt`, i.e. C `atol`: skip leading whitespace, an
optional sign, then the leading run of decimal digits; an input with no
leading digit yields 0. -/
def atol (s : String) : Int :=
  match s.toList.dropWhile Char.isWhitespace with
  | '-' :: rest => -(Int.ofNat (digitsVal rest 0))
  | '+' :: rest => Int.ofNat (digitsVal rest 0)
  | cs => Int.ofNat (digitsVal cs 0)

/-! ## Frame decoding

`StompCommandParser::parse` is declared in `StompCommandParser.h`, which
is not part of the sources under verification; only its caller
`_handleWebSocketEvent` is. -/

/-- Split a character stream at newline characters; the accumulator
holds the current line reversed. -/
def splitLinesAux : List Char → List Char → List (List Char)
  | [], acc => [acc.reverse]
  | c :: cs, acc =>
      if c = '\n' then acc.reverse :: splitLinesAux cs []
      else splitLinesAux cs (c :: acc)

/-- Split one header line at the first colon; a line without a colon
becomes a header with an empty value. -/
def splitHeaderLine (l : List Char) : String × String :=
  let k := l.takeWhile (fun c => c ≠ ':')
  match l.dropWhile (fun c => c ≠ ':') with
  | _ :: rest => (String.mk k, String.mk rest)
  | [] => (String.mk k, "")

/-- Header lines: everything up to the first blank line. -/
def takeHeaders : List (List Char) → List (String × String)
  | [] => []
  | l :: rest => if l = [] then [] else splitHeaderLine l :: takeHeaders rest

/-- Lines after the first blank line (the body lines). -/
def bodyLines : List (List Char) → List (List Char)
  | [] => []
  | l :: rest => if l = [] then rest else bodyLines rest

/-- Rejoin lines with newline separators. -/
def joinLines : List (List Char) → List Char
  | [] => []
  | [l] => l
  | l :: rest => l ++ '\n' :: joinLines rest

/-- Modelled from the spec: `StompCommandParser::parse`
(`StompCommandParser.h` is not under the verified sources).  Following
section 4.1 of the specification: the first line is the command token;
subsequent lines up to the first blank line are `key:value` headers
split at the first colon, a line without a colon being tolerated as a
header with an empty value; everything after the blank line is the
body. -/
def parseCommand (text : String) : StompCommand :=
  match splitLinesAux text.toList [] with
  | [] => { command := "", headers := [], body := "" }
  | cmd :: rest =>
      { command := String.mk cmd
        headers := takeHeaders rest
        body := String.mk (joinLines (bodyLines rest)) }

/-- Modelled from the spec: `StompHeaders::getValue` (`Stomp.h` is not
under the verified sources).  Following section 3 of the specification:
lookup by key returns the value of the first matching header in
declaration order, and absence of the key yields the empty string. -/
def getValue (headers : List (String × String)) (key : String) : String :=
  match headers.find? (fun p => p.1 == key) with
  | some p => p.2
  | none => ""

/-! ## Sending -/

/-- Frame text built by `_send`: every line followed by a newline, then
one final blank line. -/
def encodeFrame (lines : List String) : String :=
  String.join (lines.map (fun l => l ++ "\n")) ++ "\n"

/-- Frame text built by `_sendWithHeaders`: the command line, then the
extra headers, then the remaining lines, then one final blank line. -/
def encodeFrameWithHeaders (lines : List String) (headers : List (String × String)) : String :=
  lines.headD "" ++ "\n"
    ++ String.join (headers.map (fun h => h.1 ++ ":" ++ h.2 ++ "\n"))
    ++ String.join ((lines.drop 1).map (fun l => l ++ "\n"))
    ++ "\n"

/-- `StompClient::_send`: emit the encoded frame, refresh `_lastSent`
with the current `millis()` value, increment `_commandCount`. -/
def _send (c : StompClient) (now : Nat) (lines : List String) : StompClient × List Effect :=
  ({ c with _lastSent := now, _commandCount := c._commandCount + 1 },
   [Effect.sendTXT (encodeFrame lines)])

/-- `StompClient::_sendWithHeaders`: emit the encoded frame and
increment `_commandCount`.  Note that, unlike `_send`, it does not touch
`_lastSent`. -/
def _sendWithHeaders (c : StompClient) (lines : List String)
    (headers : List (String × String)) : StompClient × List Effect :=
  ({ c with _commandCount := c._commandCount + 1 },
   [Effect.sendTXT (encodeFrameWithHeaders lines headers)])

/-- `StompClient::_sendHeartbeat`: emit a single newline, refresh
`_lastSent`, increment `_commandCount`. -/
def _sendHeartbeat (c : StompClient) (now : Nat) : StompClient × List Effect :=
  ({ c with _lastSent := now, _commandCount := c._commandCount + 1 },
   [Effect.sendTXT "\n"])

/-! ## Public operations -/

/-- The `ack` string chosen by the `switch` in `subscribe`. -/
def ackModeString : Stomp_AckMode_t → String
  | Stomp_AckMode_t.AUTO => "auto"
  | Stomp_AckMode_t.CLIENT => "client"
  | Stomp_AckMode_t.CLIENT_INDIVIDUAL => "client-individual"

/-- The scan of `subscribe`: index of the first slot whose `id` is `-1`,
in increasing index order, exactly as the `for` loop does. -/
def findFree : List StompSubscription → Option Nat
  | [] => none
  | s :: rest => if s.id = -1 then some 0 else (findFree rest).map (· + 1)

/-- `StompClient::subscribe`: claim the first free slot, store the
handler, send a SUBSCRIBE frame with id `sub-<index>`, and return the
index; return `-1` and send nothing when every slot is taken.
`handler` records whether the supplied callback is non-null. -/
def subscribe (c : StompClient) (now : Nat) (queue : String)
    (ackType : Stomp_AckMode_t) (handler : Bool) : StompClient × List Effect × Int :=
  match findFree c._subscriptions with
  | some i =>
      let c1 := { c with
        _subscriptions := c._subscriptions.set i { id := Int.ofNat i, hasHandler := handler } }
      let r := _send c1 now
        ["SUBSCRIBE", "id:sub-" ++ toString i, "destination:" ++ queue,
         "ack:" ++ ackModeString ackType]
      (r.1, r.2, Int.ofNat i)
  | none => (c, [], -1)

/-- `StompClient::unsubscribe`: send an UNSUBSCRIBE frame, then write
the free sentinel into `_subscriptions[subscription]` with no bounds
check; a handle outside `0..STOMP_MAX_SUBSCRIPTIONS-1` is an
out-of-bounds array write, modelled as `none`. -/
def unsubscribe (c : StompClient) (now : Nat) (subscription : Int) :
    Option (StompClient × List Effect) :=
  let r := _send c now ["UNSUBSCRIBE", "id:sub-" ++ toString subscription]
  if 0 ≤ subscription ∧ subscription < Int.ofNat STOMP_MAX_SUBSCRIPTIONS then
    some ({ r.1 with
             _subscriptions := r.1._subscriptions.set subscription.toNat noSub },
          r.2)
  else none

/-- `StompClient::ack`: send an ACK frame whose `id` header is the
value of the `ack` header of the message. -/
def ack (c : StompClient) (now : Nat) (message : StompCommand) : StompClient × List Effect :=
  _send c now ["ACK", "id:" ++ getValue message.headers "ack"]

/-- `StompClient::nack`: send a NACK frame whose `id` header is the
value of the `ack` header of the message. -/
def nack (c : StompClient) (now : Nat) (message : StompCommand) : StompClient × List Effect :=
  _send c now ["NACK", "id:" ++ getValue message.headers "ack"]

/-- `StompClient::disconnect`: send a DISCONNECT frame whose `receipt`
header is the current `_commandCount`.  No field other than the
bookkeeping done by `_send` changes; in particular `_state` is left as
it was. -/
def disconnect (c : StompClient) (now : Nat) : StompClient × List Effect :=
  _send c now ["DISCONNECT", "receipt:" ++ toString c._commandCount]

/-- `StompClient::sendMessage`. -/
def sendMessage (c : StompClient) (now : Nat) (destination message : String) :
    StompClient × List Effect :=
  _send c now ["SEND", "destination:" ++ destination, "", message]

/-- `StompClient::sendMessageAndHeaders`; goes through
`_sendWithHeaders`, which never reads `millis()`. -/
def sendMessageAndHeaders (c : StompClient) (destination message : String)
    (headers : List (String × String)) : StompClient × List Effect :=
  _sendWithHeaders c ["SEND", "destination:" ++ destination, "", message] headers

/-! ## Connection state machine -/

/-- `_preferredHeartbeat`, fixed at 10000 ms. -/
def _preferredHeartbeat : Int := 10000

/-- The lines of the CONNECT frame built by `_connectStomp`, with the
optional `login` header when a user identity was configured. -/
def connectFrameLines (user : Option String) : List String :=
  ["CONNECT", "accept-version:1.1,1.0",
   "heart-beat:" ++ toString _preferredHeartbeat ++ ",0"]
    ++ (match user with
        | some u => ["login:" ++ u]
        | none => [])

/-- `StompClient::_connectStomp`: when the state is not already
`OPENING`, set it to `OPENING` and send the CONNECT frame; otherwise do
nothing. -/
def _connectStomp (c : StompClient) (now : Nat) : StompClient × List Effect :=
  if c._state = Stomp_State_t.OPENING then (c, [])
  else _send { c with _state := Stomp_State_t.OPENING } now (connectFrameLines c._user)

/-- `StompClient::parseHeartbeat`: when the `heart-beat` header of the
CONNECTED frame is non-empty, set `_heartbeatInterval` to the maximum of
the integer parsed from the start of the header value and
`_preferredHeartbeat`. -/
def parseHeartbeat (c : StompClient) (command : StompCommand) : StompClient :=
  let hb := getValue command.headers "heart-beat"
  if hb = "" then c
  else { c with _heartbeatInterval := max (atol hb) _preferredHeartbeat }

/-- `StompClient::_handleConnected`: when not already `CONNECTED`, move
to `CONNECTED`, negotiate the heartbeat interval, and fire the connect
callback when registered. -/
def _handleConnected (c : StompClient) (command : StompCommand) : StompClient × List Effect :=
  if c._state = Stomp_State_t.CONNECTED then (c, [])
  else
    (parseHeartbeat { c with _state := Stomp_State_t.CONNECTED } command,
     if c._connectHandler then [Effect.callConnect] else [])

/-- `StompClient::_handleReceipt`: fire the receipt callback when
registered; when the state is `DISCONNECTING`, move to `DISCONNECTED`
and fire the disconnect callback when registered. -/
def _handleReceipt (c : StompClient) (command : StompCommand) : StompClient × List Effect :=
  let es := if c._receiptHandler then [Effect.callReceipt] else []
  if c._state = Stomp_State_t.DISCONNECTING then
    ({ c with _state := Stomp_State_t.DISCONNECTED },
     es ++ (if c._disconnectHandler then [Effect.callDisconnect] else []))
  else (c, es)

/-- `StompClient::_handleError`: force `DISCONNECTED`, fire the error
callback then the disconnect callback, each when registered. -/
def _handleError (c : StompClient) (command : StompCommand) : StompClient × List Effect :=
  ({ c with _state := Stomp_State_t.DISCONNECTED },
   (if c._errorHandler then [Effect.callError] else [])
     ++ (if c._disconnectHandler then [Effect.callDisconnect] else []))

/-- `StompClient::_handleMessage`.  The `subscription` header must start
with `sub-`; its remainder is parsed with `toInt` (0 when no leading
digit) and used to index `_subscriptions` with no bounds check (an
out-of-range index is an out-of-bounds access, modelled as `none`).
When the indexed slot holds that id and a handler, the handler is
invoked; `handlerResult` is the value the invoked handler returns, which
drives an ACK or NACK send. -/
def _handleMessage (c : StompClient) (now : Nat) (message : StompCommand)
    (handlerResult : Stomp_Ack_t) : Option (StompClient × List Effect) :=
  let sub := getValue message.headers "subscription"
  if strStartsWith sub "sub-" = false then some (c, [])
  else
    let id : Int := atol (strDrop sub 4)
    if 0 ≤ id ∧ id < Int.ofNat STOMP_MAX_SUBSCRIPTIONS then
      let s := c._subscriptions.getD id.toNat noSub
      if s.id ≠ id then some (c, [])
      else if s.hasHandler then
        match handlerResult with
        | Stomp_Ack_t.ACK =>
            let r := ack c now message
            some (r.1, Effect.callMessageHandler id.toNat :: r.2)
        | Stomp_Ack_t.NACK =>
            let r := nack c now message
            some (r.1, Effect.callMessageHandler id.toNat :: r.2)
        | Stomp_Ack_t.CONTINUE => some (c, [Effect.callMessageHandler id.toNat])
      else some (c, [])
    else none

/-- `StompClient::_handleCommand`: dispatch on the command verb;
unsupported verbs are discarded. -/
def _handleCommand (c : StompClient) (now : Nat) (command : StompCommand)
    (handlerResult : Stomp_Ack_t) : Option (StompClient × List Effect) :=
  if command.command = "CONNECTED" then some (_handleConnected c command)
  else if command.command = "MESSAGE" then _handleMessage c now command handlerResult
  else if command.command = "RECEIPT" then some (_handleReceipt c command)
  else if command.command = "ERROR" then some (_handleError c command)
  else some (c, [])

/-- `StompClient::_handleWebSocketEvent`.  In SockJS mode the first byte
of a text payload is inspected: `h` counts a heartbeat, `o` triggers the
STOMP connect, `a` parses the payload text as received — the marker and
array envelope are not removed before `StompCommandParser::parse` is
called; any other first byte does nothing.  Outside SockJS mode every
text payload is parsed. -/
def _handleWebSocketEvent (c : StompClient) (now : Nat) (type : WStype_t)
    (payload : String) (handlerResult : Stomp_Ack_t) : Option (StompClient × List Effect) :=
  match type with
  | WStype_t.WStype_DISCONNECTED => some ({ c with _state := Stomp_State_t.DISCONNECTED }, [])
  | WStype_t.WStype_CONNECTED => some (_connectStomp c now)
  | WStype_t.WStype_TEXT =>
      if c._sockjs then
        match payload.toList with
        | 'h' :: _ => some ({ c with _heartbeats := c._heartbeats + 1 }, [])
        | 'o' :: _ => some (_connectStomp c now)
        | 'a' :: _ => _handleCommand c now (parseCommand payload) handlerResult
        | _ => some (c, [])
      else _handleCommand c now (parseCommand payload) handlerResult
  | WStype_t.WStype_OTHER => some (c, [])

/-! ## Invariants and concrete fixtures -/

/-- Slot invariant of the subscription table: every slot in range either
holds the free sentinel id `-1` or holds exactly its own index. -/
abbrev SubInv (c : StompClient) : Prop :=
  ∀ i, i < STOMP_MAX_SUBSCRIPTIONS →
    (c._subscriptions.getD i noSub).id = -1 ∨ (c._subscriptions.getD i noSub).id = Int.ofNat i

/-- A connected client fixture: one live subscription in slot 0, command
counter 7, connect and disconnect callbacks registered. -/
def cConnected : StompClient :=
  { _sockjs := false
    _user := none
    _state := Stomp_State_t.CONNECTED
    _subscriptions := { id := 0, hasHandler := true } :: List.replicate 7 noSub
    _lastSent := 0
    _heartbeatInterval := 10000
    _commandCount := 7
    _heartbeats := 0
    _connectHandler := true
    _disconnectHandler := true
    _receiptHandler := false
    _errorHandler := false }

/-- An opening SockJS client fixture: one live subscription in slot 0,
connect and disconnect callbacks registered. -/
def cOpening : StompClient :=
  { _sockjs := true
    _user := none
    _state := Stomp_State_t.OPENING
    _subscriptions := { id := 0, hasHandler := true } :: List.replicate 7 noSub
    _lastSent := 0
    _heartbeatInterval := 0
    _commandCount := 0
    _heartbeats := 0
    _connectHandler := true
    _disconnectHandler := true
    _receiptHandler := false
    _errorHandler := false }

/-- A client fixture whose subscription table is completely full. -/
def cFull : StompClient :=
  { cOpening with
    _subscriptions :=
      [{ id := 0, hasHandler := true }, { id := 1, hasHandler := true },
       { id := 2, hasHandler := true }, { id := 3, hasHandler := true },
       { id := 4, hasHandler := true }, { id := 5, hasHandler := true },
       { id := 6, hasHandler := true }, { id := 7, hasHandler := true }] }

/-! ## List helper lemmas -/

theorem getD_set_self {α : Type} (l : List α) (i : Nat) (v d : α)
    (h : i < l.length) : (l.set i v).getD i d = v := by
  induction l generalizing i with
  | nil => simp at h
  | cons a t ih =>
      cases i with
      | zero => rfl
      | succ n =>
          simp only [List.set_cons_succ, List.getD_cons_succ]
          exact ih n (by simpa using h)

theorem getD_set_ne {α : Type} (l : List α) (i j : Nat) (v d : α)
    (h : i ≠ j) : (l.set i v).getD j d = l.getD j d := by
  induction l generalizing i j with
  | nil => rfl
  | cons a t ih =>
      cases i with
      | zero =>
          cases j with
          | zero => exact absurd rfl h
          | succ m => rfl
      | succ n =>
          cases j with
          | zero => rfl
          | succ m =>
              simp only [List.set_cons_succ, List.getD_cons_succ]
              exact ih n m (fun hh => h (by rw [hh]))

theorem set_getD_eq_self {α : Type} (l : List α) (i : Nat) (v d : α)
    (hv : l.getD i d = v) (h : i < l.length) : l.set i v = l := by
  induction l generalizing i with
  | nil => simp at h
  | cons a t ih =>
      cases i with
      | zero =>
          simp only [List.getD_cons_zero] at hv
          rw [hv]
          rfl
      | succ n =>
          simp only [List.getD_cons_succ] at hv
          simp only [List.set_cons_succ]
          rw [ih n hv (by simpa using h)]

theorem findFree_some_elim (l : List StompSubscription) (i : Nat)
    (h : findFree l = some i) :
    i < l.length ∧ (l.getD i noSub).id = -1 ∧ ∀ j, j < i → (l.getD j noSub).id ≠ -1 := by
  induction l generalizing i with
  | nil => simp [findFree] at h
  | cons s rest ih =>
      by_cases hs : s.id = -1
      · simp only [findFree, if_pos hs] at h
        cases h
        exact ⟨by simp, hs, by omega⟩
      · simp only [findFree, if_neg hs, Option.map_eq_some'] at h
        obtain ⟨i', hi', rfl⟩ := h
        obtain ⟨h1, h2, h3⟩ := ih i' hi'
        refine ⟨by simpa using h1, h2, ?_⟩
        intro j hj
        cases j with
        | zero => simpa using hs
        | succ m =>
            simpa using h3 m (by omega)

theorem findFree_none_of (l : List StompSubscription)
    (h : ∀ i, i < l.length → (l.getD i noSub).id ≠ -1) : findFree l = none := by
  induction l with
  | nil => rfl
  | cons s rest ih =>
      have hs : s.id ≠ -1 := by simpa using h 0 (by simp)
      simp only [findFree, if_neg hs, Option.map_eq_none']
      exact ih (fun i hi => by simpa using h (i + 1) (by simpa using hi))

theorem findFree_some_of (l : List StompSubscription) (i : Nat)
    (hlt : i < l.length) (hfree : (l.getD i noSub).id = -1)
    (hmin : ∀ j, j < i → (l.getD j noSub).id ≠ -1) : findFree l = some i := by
  induction l generalizing i with
  | nil => simp at hlt
  | cons s rest ih =>
      cases i with
      | zero =>
          simp only [List.getD_cons_zero] at hfree
          simp [findFree, hfree]
      | succ n =>
          have hs : s.id ≠ -1 := by simpa using hmin 0 (by omega)
          simp only [List.getD_cons_succ] at hfree
          simp only [findFree, if_neg hs]
          rw [ih n (by simpa using hlt) hfree
            (fun j hj => by simpa using hmin (j + 1) (by omega))]
          rfl

/-! ## Claim theorems -/

/-- C1 (code_bug): calling `disconnect()` on a connected client with
command counter 7 does send exactly one DISCONNECT frame whose `receipt`
header carries the current counter value 7, but the state stays
`CONNECTED` — `disconnect` never assigns `DISCONNECTING`, which no code
path assigns at all — so a subsequently received RECEIPT frame leaves the
state unchanged and does not fire the disconnect callback, contradicting
the claimed lifecycle completion. -/
theorem disconnect_bug_state_not_disconnecting :
    disconnect cConnected 50 =
      ({ cConnected with _lastSent := 50, _commandCount := 8 },
       [Effect.sendTXT "DISCONNECT\nreceipt:7\n\n"]) ∧
    ({ cConnected with _lastSent := 50, _commandCount := 8 })._state = Stomp_State_t.CONNECTED ∧
    _handleCommand { cConnected with _lastSent := 50, _commandCount := 8 } 60
        (parseCommand "RECEIPT\nreceipt-id:7\n\n") Stomp_Ack_t.CONTINUE =
      some ({ cConnected with _lastSent := 50, _commandCount := 8 }, []) :=
  ⟨by decide, rfl, by decide⟩

/-- C5 (code_bug): the heartbeat send and the plain frame send both
refresh the last-send timestamp with the current time, but
`sendMessageAndHeaders`, which goes through `_sendWithHeaders`, leaves
`_lastSent` untouched (here it stays 0) while still emitting a frame and
incrementing the command counter. -/
theorem sendWithHeaders_skips_lastSent :
    (_sendHeartbeat cConnected 42).1._lastSent = 42 ∧
    (sendMessage cConnected 42 "dst" "body").1._lastSent = 42 ∧
    sendMessageAndHeaders cConnected "dst" "body" [("k", "v")] =
      ({ cConnected with _commandCount := 8 },
       [Effect.sendTXT "SEND\nk:v\ndestination:dst\n\nbody\n\n"]) :=
  ⟨rfl, rfl, by decide⟩

/-- C6 (code_bug): in SockJS mode an incoming text whose first byte is
the `a` data marker is handed to the frame decoder as received, marker
and array envelope included, so a wrapped CONNECTED frame is not
recognised and nothing happens; decoding the bare wrapped payload
instead would have moved the state to `CONNECTED` and fired the connect
callback. -/
theorem sockjs_array_marker_not_stripped :
    _handleWebSocketEvent cOpening 5 WStype_t.WStype_TEXT "a[\"CONNECTED\n\n\"]"
        Stomp_Ack_t.CONTINUE = some (cOpening, []) ∧
    _handleCommand cOpening 5 (parseCommand "CONNECTED\n\n") Stomp_Ack_t.CONTINUE
      = some ({ cOpening with _state := Stomp_State_t.CONNECTED }, [Effect.callConnect]) :=
  ⟨by decide, by decide⟩

/-- C2 (counterexample): a transport "connected" event received while
the state is `CONNECTED` is not a no-op: the guard in `_connectStomp`
only checks for `OPENING`, so the state is reset to `OPENING` and a
fresh CONNECT frame is sent. -/
theorem open_pulse_in_connected_not_noop_cex :
    _handleWebSocketEvent cConnected 5 WStype_t.WStype_CONNECTED "" Stomp_Ack_t.CONTINUE
      = some ({ cConnected with
                  _state := Stomp_State_t.OPENING
                  _lastSent := 5
                  _commandCount := 8 },
              [Effect.sendTXT "CONNECT\naccept-version:1.1,1.0\nheart-beat:10000,0\n\n"]) ∧
    ¬ _handleWebSocketEvent cConnected 5 WStype_t.WStype_CONNECTED "" Stomp_Ack_t.CONTINUE
        = some (cConnected, []) := by
  decide

/-- C2 (amended): a re-triggered open transition is a no-op exactly when
the state is already `OPENING`; from every other state — including
`CONNECTED` and `DISCONNECTING` — it sets the state to `OPENING` and
sends a CONNECT frame. -/
theorem connect_transition_noop_iff_opening (c : StompClient) (now : Nat) :
    (c._state = Stomp_State_t.OPENING → _connectStomp c now = (c, [])) ∧
    (c._state ≠ Stomp_State_t.OPENING →
      (_connectStomp c now).1._state = Stomp_State_t.OPENING ∧
      (_connectStomp c now).2 = [Effect.sendTXT (encodeFrame (connectFrameLines c._user))]) := by
  constructor
  · intro h
    simp [_connectStomp, h]
  · intro h
    simp [_connectStomp, h, _send]

/-- C2 (witness): the amended statement applied to two concrete clients,
one already opening (no-op), one connected (state reset to opening). -/
theorem connect_transition_noop_iff_opening_witness :
    _connectStomp cOpening 3 = (cOpening, []) ∧
    (_connectStomp cConnected 4).1._state = Stomp_State_t.OPENING :=
  ⟨(connect_transition_noop_iff_opening cOpening 3).1 rfl,
   ((connect_transition_noop_iff_opening cConnected 4).2 (by decide)).1⟩

/-- C3 (counterexample): unsubscribing the out-of-range handles `-1` and
`8` is not a no-op: `unsubscribe` writes to
`_subscriptions[subscription]` with no bounds check, an out-of-bounds
array write, modelled as `none`. -/
theorem unsubscribe_out_of_range_cex :
    unsubscribe cOpening 3 (-1) = none ∧ unsubscribe cOpening 3 8 = none := by
  decide

/-- C3 (amended): for an in-range handle (0 to capacity-1) whose slot is
already free, `unsubscribe` leaves every registry slot unchanged and
does not fail — it still sends an UNSUBSCRIBE frame and bumps the send
bookkeeping; an out-of-range handle instead performs an out-of-bounds
array write rather than a no-op. -/
theorem unsubscribe_inrange_free_noop (c : StompClient) (now : Nat) (h : Int)
    (hlen : c._subscriptions.length = STOMP_MAX_SUBSCRIPTIONS)
    (h0 : 0 ≤ h) (hlt : h < Int.ofNat STOMP_MAX_SUBSCRIPTIONS)
    (hfree : c._subscriptions.getD h.toNat noSub = noSub) :
    unsubscribe c now h =
      some ({ c with _lastSent := now, _commandCount := c._commandCount + 1 },
            [Effect.sendTXT (encodeFrame ["UNSUBSCRIBE", "id:sub-" ++ toString h])]) := by
  have hcond : 0 ≤ h ∧ h < Int.ofNat STOMP_MAX_SUBSCRIPTIONS := ⟨h0, hlt⟩
  have htn : h.toNat < c._subscriptions.length := by
    rw [hlen]
    simp only [STOMP_MAX_SUBSCRIPTIONS, Int.ofNat_eq_coe] at hlt ⊢
    omega
  simp only [unsubscribe, _send, if_pos hcond]
  rw [set_getD_eq_self _ _ _ noSub hfree htn]

/-- C3 (witness): unsubscribing the free in-range handle 2 of a concrete
client changes no registry slot. -/
theorem unsubscribe_inrange_free_noop_witness :
    unsubscribe cOpening 9 2 =
      some ({ cOpening with _lastSent := 9, _commandCount := 1 },
            [Effect.sendTXT (encodeFrame ["UNSUBSCRIBE", "id:sub-" ++ toString (2 : Int)])]) :=
  unsubscribe_inrange_free_noop cOpening 9 2 (by decide) (by decide) (by decide) (by decide)

/-- C4 (counterexample): the MESSAGE subscription token `sub-xyz` is not
of the form `sub-<index>` for any index, yet the frame is not dropped:
`toInt` parses the non-numeric remainder as 0 and the handler of live
slot 0 is invoked. -/
theorem malformed_subscription_invokes_handler_cex :
    _handleMessage cOpening 5
        { command := "MESSAGE"
          headers := [("subscription", "sub-xyz"), ("message-id", "m1")]
          body := "hello" }
        Stomp_Ack_t.CONTINUE
      = some (cOpening, [Effect.callMessageHandler 0]) := by
  decide

/-- C4 (amended): a MESSAGE frame whose `subscription` header does not
start with `sub-` is dropped silently (no handler, no ACK or NACK, no
state change); otherwise the suffix is parsed leniently as a leading
integer — a non-numeric suffix parses as 0 — and the slot at that index
is accessed with no bounds check, so an index outside 0 to capacity-1 is
an out-of-range array access; an in-range index whose slot does not hold
that id drops the frame silently. -/
theorem handleMessage_drop_rules (c : StompClient) (now : Nat) (msg : StompCommand)
    (r : Stomp_Ack_t) :
    (strStartsWith (getValue msg.headers "subscription") "sub-" = false →
      _handleMessage c now msg r = some (c, [])) ∧
    (strStartsWith (getValue msg.headers "subscription") "sub-" = true →
      ¬ (0 ≤ atol (strDrop (getValue msg.headers "subscription") 4) ∧
          atol (strDrop (getValue msg.headers "subscription") 4)
            < Int.ofNat STOMP_MAX_SUBSCRIPTIONS) →
      _handleMessage c now msg r = none) ∧
    (strStartsWith (getValue msg.headers "subscription") "sub-" = true →
      (0 ≤ atol (strDrop (getValue msg.headers "subscription") 4) ∧
        atol (strDrop (getValue msg.headers "subscription") 4)
          < Int.ofNat STOMP_MAX_SUBSCRIPTIONS) →
      (c._subscriptions.getD
          (atol (strDrop (getValue msg.headers "subscription") 4)).toNat noSub).id
        ≠ atol (strDrop (getValue msg.headers "subscription") 4) →
      _handleMessage c now msg r = some (c, [])) := by
  refine ⟨?_, ?_, ?_⟩
  · intro h
    simp only [_handleMessage]
    rw [if_pos h]
  · intro h hb
    simp only [_handleMessage]
    rw [if_neg (by simp [h]), if_neg hb]
  · intro h hb hne
    simp only [_handleMessage]
    rw [if_neg (by simp [h]), if_pos hb, if_pos hne]

/-- C4 (witness): a subscription header without the `sub-` marker is
dropped, and the token `sub-9` denotes the out-of-range index 9. -/
theorem handleMessage_drop_rules_witness :
    _handleMessage cOpening 1
        { command := "MESSAGE", headers := [("subscription", "other")], body := "" }
        Stomp_Ack_t.CONTINUE = some (cOpening, []) ∧
    _handleMessage cOpening 1
        { command := "MESSAGE", headers := [("subscription", "sub-9")], body := "" }
        Stomp_Ack_t.CONTINUE = none :=
  ⟨(handleMessage_drop_rules cOpening 1
      { command := "MESSAGE", headers := [("subscription", "other")], body := "" }
      Stomp_Ack_t.CONTINUE).1 (by decide),
   (handleMessage_drop_rules cOpening 1
      { command := "MESSAGE", headers := [("subscription", "sub-9")], body := "" }
      Stomp_Ack_t.CONTINUE).2.1 (by decide) (by decide)⟩

/-- C7 (confirmed): on a CONNECTED frame received while not already
connected, a non-empty `heart-beat` header sets the effective heartbeat
interval to the maximum of the integer parsed from the start of the
header value and the preferred interval 10000; in particular the header
value `5000,0` yields 10000 and `20000,0` yields 20000. -/
theorem heartbeat_negotiation_max_rule (c : StompClient) (cmd : StompCommand)
    (hst : c._state ≠ Stomp_State_t.CONNECTED) :
    (getValue cmd.headers "heart-beat" ≠ "" →
      (_handleConnected c cmd).1._heartbeatInterval
        = max (atol (getValue cmd.headers "heart-beat")) 10000) ∧
    (_handleConnected c
        { command := "CONNECTED", headers := [("heart-beat", "5000,0")], body := "" }
      ).1._heartbeatInterval = 10000 ∧
    (_handleConnected c
        { command := "CONNECTED", headers := [("heart-beat", "20000,0")], body := "" }
      ).1._heartbeatInterval = 20000 := by
  refine ⟨?_, ?_, ?_⟩
  · intro hhb
    simp only [_handleConnected, if_neg hst, parseHeartbeat]
    rw [if_neg hhb]
    rfl
  · simp only [_handleConnected, if_neg hst, parseHeartbeat]
    rw [(by decide : getValue [("heart-beat", "5000,0")] "heart-beat" = "5000,0")]
    rw [if_neg (by decide : ¬ ("5000,0" : String) = "")]
    show max (atol "5000,0") _preferredHeartbeat = 10000
    decide
  · simp only [_handleConnected, if_neg hst, parseHeartbeat]
    rw [(by decide : getValue [("heart-beat", "20000,0")] "heart-beat" = "20000,0")]
    rw [if_neg (by decide : ¬ ("20000,0" : String) = "")]
    show max (atol "20000,0") _preferredHeartbeat = 20000
    decide

/-- C7 (witness): the negotiation rule applied to an opening client,
for the header value `42,0` and for the two example values of the
claim. -/
theorem heartbeat_negotiation_max_rule_witness :
    (_handleConnected cOpening
        { command := "CONNECTED", headers := [("heart-beat", "42,0")], body := "" }
      ).1._heartbeatInterval = max (atol "42,0") 10000 ∧
    (_handleConnected cOpening
        { command := "CONNECTED", headers := [("heart-beat", "5000,0")], body := "" }
      ).1._heartbeatInterval = 10000 ∧
    (_handleConnected cOpening
        { command := "CONNECTED", headers := [("heart-beat", "20000,0")], body := "" }
      ).1._heartbeatInterval = 20000 :=
  ⟨(heartbeat_negotiation_max_rule cOpening
      { command := "CONNECTED", headers := [("heart-beat", "42,0")], body := "" }
      (by decide)).1 (by decide),
   (heartbeat_negotiation_max_rule cOpening
      { command := "CONNECTED", headers := [("heart-beat", "42,0")], body := "" }
      (by decide)).2.1,
   (heartbeat_negotiation_max_rule cOpening
      { command := "CONNECTED", headers := [("heart-beat", "42,0")], body := "" }
      (by decide)).2.2⟩

/-- C8 (confirmed): when every slot of the subscription table is
occupied, `subscribe` returns `-1`, sends no frame and leaves the whole
client — every registry slot included — unchanged; when a free slot
exists, `subscribe` claims the lowest-numbered free slot, returns its
index and sends the matching SUBSCRIBE frame, so a handle freed by
`unsubscribe` is reused by the next `subscribe` when it is the lowest
free index. -/
theorem subscribe_capacity_and_lowest_free (c : StompClient) (now : Nat) (q : String)
    (a : Stomp_AckMode_t) (hd : Bool) :
    ((∀ i, i < c._subscriptions.length → (c._subscriptions.getD i noSub).id ≠ -1) →
      subscribe c now q a hd = (c, [], -1)) ∧
    (∀ i, i < c._subscriptions.length → (c._subscriptions.getD i noSub).id = -1 →
      (∀ j, j < i → (c._subscriptions.getD j noSub).id ≠ -1) →
      subscribe c now q a hd =
        ({ c with
             _subscriptions :=
               c._subscriptions.set i { id := Int.ofNat i, hasHandler := hd }
             _lastSent := now
             _commandCount := c._commandCount + 1 },
         [Effect.sendTXT (encodeFrame
            ["SUBSCRIBE", "id:sub-" ++ toString i, "destination:" ++ q,
             "ack:" ++ ackModeString a])],
         Int.ofNat i)) := by
  constructor
  · intro hfull
    have hf : findFree c._subscriptions = none := findFree_none_of _ hfull
    simp [subscribe, hf]
  · intro i hi hfree hmin
    have hf : findFree c._subscriptions = some i := findFree_some_of _ i hi hfree hmin
    simp [subscribe, hf, _send]

/-- C8 (witness): subscribing on a full table returns `-1` and changes
nothing; on a table whose lowest free slot is 1, the new subscription
receives handle 1. -/
theorem subscribe_capacity_and_lowest_free_witness :
    subscribe cFull 3 "q" Stomp_AckMode_t.CLIENT true = (cFull, [], -1) ∧
    subscribe cOpening 3 "q" Stomp_AckMode_t.AUTO true =
      ({ cOpening with
           _subscriptions :=
             cOpening._subscriptions.set 1 { id := Int.ofNat 1, hasHandler := true }
           _lastSent := 3
           _commandCount := cOpening._commandCount + 1 },
       [Effect.sendTXT (encodeFrame
          ["SUBSCRIBE", "id:sub-" ++ toString 1, "destination:" ++ "q",
           "ack:" ++ ackModeString Stomp_AckMode_t.AUTO])],
       Int.ofNat 1) :=
  ⟨(subscribe_capacity_and_lowest_free cFull 3 "q" Stomp_AckMode_t.CLIENT true).1
      (by decide),
   (subscribe_capacity_and_lowest_free cOpening 3 "q" Stomp_AckMode_t.AUTO true).2 1
      (by decide) (by decide) (by decide)⟩

/-- C9 (confirmed): the slot invariant — every subscription slot in
range holds either the free id `-1` or exactly its own index — holds
after construction and is preserved by every `subscribe` call and by
every `unsubscribe` call whose handle is in range 0 to capacity-1. -/
theorem subscription_id_invariant :
    (∀ n0 u s, SubInv (stompClientInit n0 u s)) ∧
    (∀ c now q a hd, c._subscriptions.length = STOMP_MAX_SUBSCRIPTIONS → SubInv c →
      SubInv (subscribe c now q a hd).1) ∧
    (∀ c now h c' es, c._subscriptions.length = STOMP_MAX_SUBSCRIPTIONS → SubInv c →
      0 ≤ h → h < Int.ofNat STOMP_MAX_SUBSCRIPTIONS →
      unsubscribe c now h = some (c', es) → SubInv c') := by
  refine ⟨?_, ?_, ?_⟩
  · intro n0 u s
    have hrep : ∀ i, i < STOMP_MAX_SUBSCRIPTIONS →
        ((List.replicate STOMP_MAX_SUBSCRIPTIONS noSub).getD i noSub).id = -1 := by
      decide
    intro i hi
    exact Or.inl (hrep i hi)
  · intro c now q a hd hlen hinv
    cases hf : findFree c._subscriptions with
    | none => simpa [subscribe, hf] using hinv
    | some i =>
        obtain ⟨hi, hfree, hmin⟩ := findFree_some_elim _ _ hf
        intro j hj
        simp only [subscribe, hf, _send]
        show ((c._subscriptions.set i { id := Int.ofNat i, hasHandler := hd }
                ).getD j noSub).id = -1 ∨
             ((c._subscriptions.set i { id := Int.ofNat i, hasHandler := hd }
                ).getD j noSub).id = Int.ofNat j
        by_cases hij : i = j
        · subst hij
          right
          rw [getD_set_self _ _ _ _ hi]
        · rw [getD_set_ne _ _ _ _ _ hij]
          exact hinv j hj
  · intro c now h c' es hlen hinv h0 hlt heq
    have hcond : 0 ≤ h ∧ h < Int.ofNat STOMP_MAX_SUBSCRIPTIONS := ⟨h0, hlt⟩
    have htn : h.toNat < c._subscriptions.length := by
      rw [hlen]
      simp only [STOMP_MAX_SUBSCRIPTIONS, Int.ofNat_eq_coe] at hlt ⊢
      omega
    simp only [unsubscribe, _send, if_pos hcond, Option.some.injEq, Prod.mk.injEq] at heq
    obtain ⟨hc', hes⟩ := heq
    subst hc'
    intro j hj
    show ((c._subscriptions.set h.toNat noSub).getD j noSub).id = -1 ∨
         ((c._subscriptions.set h.toNat noSub).getD j noSub).id = Int.ofNat j
    by_cases hij : h.toNat = j
    · subst hij
      left
      rw [getD_set_self _ _ _ _ htn]
      rfl
    · rw [getD_set_ne _ _ _ _ _ hij]
      exact hinv j hj

/-- C9 (witness): the invariant evaluated after construction, after a
subscribe on a concrete client, and after unsubscribing handle 0. -/
theorem subscription_id_invariant_witness :
    SubInv (stompClientInit 0 none false) ∧
    SubInv (subscribe cOpening 1 "q" Stomp_AckMode_t.AUTO true).1 ∧
    SubInv ({ cOpening with
               _subscriptions := cOpening._subscriptions.set 0 noSub
               _lastSent := 2
               _commandCount := cOpening._commandCount + 1 }) :=
  ⟨subscription_id_invariant.1 0 none false,
   subscription_id_invariant.2.1 cOpening 1 "q" Stomp_AckMode_t.AUTO true
     (by decide) (by decide),
   subscription_id_invariant.2.2 cOpening 2 0
     ({ cOpening with
         _subscriptions := cOpening._subscriptions.set 0 noSub
         _lastSent := 2
         _commandCount := cOpening._commandCount + 1 })
     [Effect.sendTXT (encodeFrame ["UNSUBSCRIBE", "id:sub-" ++ toString (0 : Int)])]
     (by decide) (by decide) (by decide) (by decide) (by decide)⟩

theorem string_append_empty (s : String) : s ++ "" = s := by
  cases s with
  | mk l =>
      show String.mk (l ++ []) = String.mk l
      rw [List.append_nil]

/-- C10 (confirmed): for a message without an `ack` header, `ack` and
`nack` do not fail: each sends exactly one ACK respectively NACK frame
whose `id` header carries the empty string, since header lookup yields
the empty-string sentinel for an absent key. -/
theorem ack_nack_missing_ack_header (c : StompClient) (now : Nat) (msg : StompCommand)
    (h : msg.headers.find? (fun p => p.1 == "ack") = none) :
    ack c now msg =
      ({ c with _lastSent := now, _commandCount := c._commandCount + 1 },
       [Effect.sendTXT "ACK\nid:\n\n"]) ∧
    nack c now msg =
      ({ c with _lastSent := now, _commandCount := c._commandCount + 1 },
       [Effect.sendTXT "NACK\nid:\n\n"]) := by
  have hg : getValue msg.headers "ack" = "" := by
    simp only [getValue, h]
  constructor
  · simp only [ack, _send, hg]
    rw [string_append_empty]
    rw [(by decide : encodeFrame ["ACK", "id:"] = "ACK\nid:\n\n")]
  · simp only [nack, _send, hg]
    rw [string_append_empty]
    rw [(by decide : encodeFrame ["NACK", "id:"] = "NACK\nid:\n\n")]

/-- C10 (witness): a MESSAGE frame carrying no `ack` header,
acknowledged and rejected on a concrete connected client. -/
theorem ack_nack_missing_ack_header_witness :
    ack cConnected 7
        { command := "MESSAGE", headers := [("subscription", "sub-0")], body := "b" } =
      ({ cConnected with _lastSent := 7, _commandCount := cConnected._commandCount + 1 },
       [Effect.sendTXT "ACK\nid:\n\n"]) ∧
    nack cConnected 7
        { command := "MESSAGE", headers := [("subscription", "sub-0")], body := "b" } =
      ({ cConnected with _lastSent := 7, _commandCount := cConnected._commandCount + 1 },
       [Effect.sendTXT "NACK\nid:\n\n"]) :=
  ack_nack_missing_ack_header cConnected 7
    { command := "MESSAGE", headers := [("subscription", "sub-0")], body := "b" }
    (by decide)

end Stomp
